import Mathlib

/-!
Verification of the evolution-assistant frontend (React/JS UI layer).

The definitions below are a shallow embedding of the state-handling code of
the repository: the ClientLanding page (src/unnamed/part_000), the
QRAssistantPage (AssistantInfo.jsx, second component) and the AdminPanel
(AdminPanel.jsx).  Network calls are modelled by oracles supplying the
backend's answer to each request; component state updates become explicit
state-passing; the requests a handler issues are logged so that claims about
which calls happen (and in which order) can be stated.
-/

namespace Evo

/-! ## JavaScript-semantics helpers -/

/-- JS truthiness of an optional string: undefined/null and "" are falsy. -/
def jsTruthy : Option String → Bool
  | some s => !(s == "")
  | none => false

/-- JS `a || b` on optional strings: `b` when `a` is undefined/null/"". -/
def jsOr (a b : Option String) : Option String :=
  if jsTruthy a then a else b

/-- JS `a || d` with a mandatory string default. -/
def jsOrD (a : Option String) (d : String) : String :=
  match a with
  | some s => if s == "" then d else s
  | none => d

/-- JS `a || 0` on an optional number field. -/
def jsOrNat (a : Option Nat) : Nat :=
  match a with
  | some n => n
  | none => 0

/-- JS `a || false` on an optional boolean field. -/
def jsOrBool (a : Option Bool) : Bool :=
  match a with
  | some b => b
  | none => false

/-- Does `s` start with the character sequence `pat`? -/
def leadsWith : List Char → List Char → Bool
  | [], _ => true
  | _ :: _, [] => false
  | a :: as, b :: bs => a == b && leadsWith as bs

/-- Does the character sequence `pat` occur inside `s`? -/
def containsChars (pat : List Char) (s : List Char) : Bool :=
  match s with
  | [] => leadsWith pat []
  | _ :: rest => leadsWith pat s || containsChars pat rest

/-- JS `s.includes(pat)`. -/
def jsIncludes (s pat : String) : Bool :=
  containsChars pat.data s.data

/-- Retry bound from the source: `const maxRetries = 3`. -/
def maxRetries : Nat := 3

/-- The backend error signature tested by the QR retry logic:
    `msg.includes('Instance') && msg.includes('does not exist')`. -/
def isInstanceNotExist (msg : String) : Bool :=
  jsIncludes msg "Instance" && jsIncludes msg "does not exist"

/-- Split a character sequence at every occurrence of `sep`. -/
def splitOnChar (sep : Char) : List Char → List (List Char)
  | [] => [[]]
  | c :: rest =>
    let ps := splitOnChar sep rest
    if c == sep then [] :: ps
    else
      match ps with
      | [] => [[c]]
      | p :: pr => (c :: p) :: pr

/-- JS `\w` without the unicode flag: ASCII letters, digits, underscore. -/
def isWordChar (c : Char) : Bool :=
  c.isAlphanum || c == '_'

/-- A character allowed by the class `[\w-.]` of the email pattern. -/
def isLocalChar (c : Char) : Bool :=
  isWordChar c || c == '-' || c == '.'

/-- A character allowed by the class `[\w-]` of the email pattern. -/
def isLabelChar (c : Char) : Bool :=
  isWordChar c || c == '-'

/-- The email check of the source, an executable rendering of the anchored
    JS regular expression used by validateForm and updateClientEmail:
    one `@`, a non-empty local part over `[\w-.]`, then at least one dotted
    label over `[\w-]` and a final label of 2 to 4 `[\w-]` characters. -/
def emailMatches (s : String) : Bool :=
  match splitOnChar '@' s.data with
  | [localPart, domain] =>
    !localPart.isEmpty && localPart.all isLocalChar &&
    (match (splitOnChar '.' domain).reverse with
     | tld :: labels =>
       !labels.isEmpty && decide (2 ≤ tld.length) && decide (tld.length ≤ 4) &&
       tld.all isLabelChar &&
       labels.all (fun l => !l.isEmpty && l.all isLabelChar)
     | [] => false)
  | _ => false

/-! ## Data model: client-facing pages (ClientLanding, QRAssistantPage) -/

/-- The `whatsapp` part of the view state built by fetchClientData. -/
structure Whatsapp where
  connected : Bool
  status : String
  connected_phone : Option String
deriving DecidableEq

/-- The `client` part of the view state built by fetchClientData. -/
structure ClientInfo where
  id : String
  name : String
  email : String
  messageCount : Nat
  pausedCount : Nat
  globalPause : Bool
deriving DecidableEq

/-- The `clientData` state variable of the client-facing pages. -/
structure ClientData where
  client : ClientInfo
  whatsapp : Whatsapp
deriving DecidableEq

/-- The displayed view state of a client-facing page: the three state
    variables touched by fetch and push handling. -/
structure LandingState where
  clientData : Option ClientData
  qrCode : Option String
  errorMessage : Option String
deriving DecidableEq

/-- A JSON event delivered on the /ws push channel:
    `{clientId, status, phone?, qrCode?}`. -/
structure PushEvent where
  clientId : Option String
  status : String
  phone : Option String
  qrCode : Option String
deriving DecidableEq

/-- A JavaScript runtime error raised during evaluation. -/
inductive JsError where
  | referenceError (name : String)
  | typeError
deriving DecidableEq

/-- socket.onmessage of ClientLanding (part_000 lines 210-229): events whose
    clientId differs from the viewed client's id are dropped; a matching event
    merges status, derived connected, phone (JS `||` fallback) and, when the
    event carries a truthy qrCode, overwrites the QR and clears the error.
    Returns `.error` where the source would throw (clientData null while the
    identifier comparison succeeded, so that spreading prevData fails). -/
def handleLandingPush (st : LandingState) (ev : PushEvent) : Except JsError LandingState :=
  if ev.clientId = st.clientData.map (fun d => d.client.id) then
    match st.clientData with
    | none => .error .typeError
    | some d =>
      .ok { clientData := some { d with whatsapp :=
              { status := ev.status,
                connected := ev.status == "open",
                connected_phone := jsOr ev.phone d.whatsapp.connected_phone } },
            qrCode := if jsTruthy ev.qrCode then ev.qrCode else st.qrCode,
            errorMessage := if jsTruthy ev.qrCode then none else st.errorMessage }
  else .ok st

/-! ## Data model: AdminPanel -/

/-- One row of the admin client list, after fetchClients mapped the backend
    record (adding `instance_id: client.id`). -/
structure AdminClient where
  id : String
  instance_id : String
  name : String
  email : String
  status : String
  connected_phone : Option String
  unique_url : String
deriving DecidableEq

/-- A client record as served by GET /admin/clients. -/
structure RawClient where
  id : String
  name : String
  email : String
  status : String
  connected_phone : Option String
  unique_url : String
deriving DecidableEq

/-- The mapping fetchClients applies to the backend list:
    copy every field and set `instance_id` to `id`. -/
def mapClients (raw : List RawClient) : List AdminClient :=
  raw.map fun r =>
    { id := r.id, instance_id := r.id, name := r.name, email := r.email,
      status := r.status, connected_phone := r.connected_phone,
      unique_url := r.unique_url }

/-- socket.onmessage of AdminPanel (lines 318-332): rewrite the matching row
    with the event's status and phone (no fallback), leave other rows as is. -/
def handleAdminPush (clients : List AdminClient) (ev : PushEvent) : List AdminClient :=
  clients.map fun c =>
    if some c.instance_id = ev.clientId then
      { c with status := ev.status, connected_phone := ev.phone }
    else c

/-! ## AdminPanel operations -/

/-- The outcome of one backend call: success with a value, or a rejection
    carrying `error.response?.data?.detail`. -/
inductive CallOutcome (α : Type) where
  | ok (val : α)
  | err (detail : Option String)
deriving DecidableEq

/-- The observable events of an admin operation: the network requests it
    issues, plus the window.confirm dialogs it shows. -/
inductive AdminReq where
  | toggleReq (id action : String)
  | listReq
  | deleteReq (id : String)
  | emailReq (id newEmail : String)
  | resendReq (id : String)
  | createReq
  | confirmPrompt (text : String)
deriving DecidableEq

/-- Is this event a network call (as opposed to a confirm dialog)? -/
def AdminReq.isNetwork : AdminReq → Bool
  | .confirmPrompt _ => false
  | _ => true

/-- Is this event a confirm dialog? -/
def AdminReq.isConfirm : AdminReq → Bool
  | .confirmPrompt _ => true
  | _ => false

/-- The AdminPanel state an operation touches, plus its event log. -/
structure OpRun where
  clients : List AdminClient
  error : Option String
  successMessage : Option String
  events : List AdminReq
deriving DecidableEq

/-- fetchClients (lines 72-90): GET /admin/clients; it clears the error, and
    on success replaces the list with the mapped backend list; on failure it
    sets the error from the response detail. -/
def fetchClientsRun (st : OpRun) (out : CallOutcome (List RawClient)) : OpRun :=
  match out with
  | .ok raw =>
    { st with clients := mapClients raw, error := none,
              events := st.events ++ [.listReq] }
  | .err d =>
    { st with error := some (jsOrD d "No se pudieron cargar los clientes"),
              events := st.events ++ [.listReq] }

/-- toggleClient (lines 185-203): POST toggle with action connect/disconnect
    (no confirm dialog); on success refetch the list and set a transient
    success notice; on failure set the error and still refetch the list. -/
def toggleClient (st : OpRun) (id : String) (isActive : Bool)
    (toggleOut : CallOutcome Unit) (listOut : CallOutcome (List RawClient)) : OpRun :=
  let act := if isActive then "connect" else "disconnect"
  let st1 : OpRun :=
    { st with error := none, events := st.events ++ [.toggleReq id act] }
  let okMsg := if isActive then "Cliente activado exitosamente!" else "Cliente desactivado exitosamente!"
  let failMsg := if isActive then "No se pudo activar el cliente" else "No se pudo desactivar el cliente"
  match toggleOut with
  | .ok _ =>
    let st2 := fetchClientsRun st1 listOut
    { st2 with successMessage := some okMsg }
  | .err d =>
    let st2 : OpRun := { st1 with error := some (jsOrD d failMsg) }
    fetchClientsRun st2 listOut

/-- deleteClient (lines 205-221): confirm dialog first; on acceptance DELETE,
    and on success patch the list locally (filter by instance_id); on failure
    set the error and refetch the list. -/
def deleteClient (st : OpRun) (id clientName : String) (confirmed : Bool)
    (delOut : CallOutcome Unit) (listOut : CallOutcome (List RawClient)) : OpRun :=
  let st0 : OpRun := { st with events := st.events ++ [.confirmPrompt clientName] }
  if !confirmed then st0
  else
    let st1 : OpRun := { st0 with error := none, events := st0.events ++ [.deleteReq id] }
    match delOut with
    | .ok _ =>
      { st1 with clients := st1.clients.filter (fun c => c.instance_id != id),
                 successMessage := some "Cliente eliminado exitosamente!" }
    | .err d =>
      let st2 : OpRun := { st1 with error := some (jsOrD d "No se pudo eliminar el cliente") }
      fetchClientsRun st2 listOut

/-- updateClientEmail (lines 223-248): validate the new email locally (same
    pattern as the create form), PUT; on success refetch the list, on failure
    set the error only — no refetch. -/
def updateClientEmail (st : OpRun) (editingId : Option String) (newEmail : String)
    (putOut : CallOutcome Unit) (listOut : CallOutcome (List RawClient)) : OpRun :=
  match editingId with
  | none => { st with error := some "Por favor, ingrese un correo electrónico válido" }
  | some id =>
    if !emailMatches newEmail then
      { st with error := some "Por favor, ingrese un correo electrónico válido" }
    else
      let st1 : OpRun := { st with error := none, events := st.events ++ [.emailReq id newEmail] }
      match putOut with
      | .ok _ =>
        let st2 := fetchClientsRun st1 listOut
        { st2 with successMessage := some "Email actualizado exitosamente!" }
      | .err d => { st1 with error := some (jsOrD d "No se pudo actualizar el email") }

/-- resendEmail (lines 250-264): confirm dialog first; on acceptance POST
    resend-email; on failure set the error only — no refetch. -/
def resendEmail (st : OpRun) (id clientEmail : String) (confirmed : Bool)
    (postOut : CallOutcome Unit) : OpRun :=
  let st0 : OpRun := { st with events := st.events ++ [.confirmPrompt clientEmail] }
  if !confirmed then st0
  else
    let st1 : OpRun := { st0 with error := none, events := st0.events ++ [.resendReq id] }
    match postOut with
    | .ok _ =>
      { st1 with successMessage := some ("Email reenviado exitosamente a " ++ clientEmail) }
    | .err d => { st1 with error := some (jsOrD d "No se pudo reenviar el email") }

/-! ## ClientLanding disconnect (part_000 lines 153-185) -/

/-- The observable events of the landing-page disconnect handler. -/
inductive LandingReq where
  | confirmPrompt
  | togglePost (id : String)
  | refetch
deriving DecidableEq

/-- Is this event a network interaction (POST or the follow-up refetch)? -/
def LandingReq.isNetwork : LandingReq → Bool
  | .confirmPrompt => false
  | _ => true

/-- handleDisconnectWhatsApp: no client id means an early return (toast only);
    otherwise a confirm dialog gates the POST; on success the page refetches. -/
def handleDisconnectWhatsApp (clientId : Option String) (confirmed : Bool)
    (postOut : CallOutcome Unit) : List LandingReq :=
  match clientId with
  | none => []
  | some id =>
    if !confirmed then [.confirmPrompt]
    else
      match postOut with
      | .ok _ => [.confirmPrompt, .togglePost id, .refetch]
      | .err _ => [.confirmPrompt, .togglePost id]

/-! ## AdminPanel create-client form: scope model

AdminPanel.jsx never declares the state pair `formData` / `setFormData`,
although validateForm, handleSubmit and the add-client modal all read them.
The identifiers actually bound in the component's scope are transcribed
below, and evaluation of an identifier reference is modelled so that reading
an unbound name raises a ReferenceError. -/

/-- Every identifier bound in the scope of the AdminPanel component body:
    the module-level imports visible inside it (React and its hooks, axios,
    the lucide icons, the component itself) plus every const declared in the
    body of AdminPanel (useState pairs of lines 23-37, backendUrl, and the
    function declarations of lines 41-308). -/
def adminPanelDeclared : List String :=
  ["React", "useState", "useEffect", "useCallback", "useRef", "axios",
   "AlertCircle", "CheckCircle", "User", "Mail", "Bot", "Trash2", "Power",
   "PowerOff", "Plus", "Edit", "Send", "MessageSquare", "List", "Key",
   "AdminPanel",
   "clients", "setClients", "loadingStates", "setLoadingStates",
   "error", "setError", "formError", "setFormError",
   "successMessage", "setSuccessMessage", "showAddForm", "setShowAddForm",
   "showEditEmailForm", "setShowEditEmailForm", "showChats", "setShowChats",
   "showQR", "setShowQR", "showThreads", "setShowThreads",
   "editingClient", "setEditingClient", "newEmail", "setNewEmail",
   "chats", "setChats", "threads", "setThreads", "qrData", "setQrData",
   "backendUrl", "useDebounce", "fetchWithRetry", "fetchClients",
   "fetchChats", "fetchThreads", "fetchQR", "validateForm", "handleSubmit",
   "toggleClient", "deleteClient", "updateClientEmail", "resendEmail",
   "debouncedFetchChats", "debouncedFetchThreads", "debouncedFetchQR",
   "debouncedToggleClient", "debouncedDeleteClient", "debouncedResendEmail",
   "openEditEmailForm", "getStatusVariant", "getStatusIcon"]

/-- Free identifiers read by validateForm (lines 139-157), first read first. -/
def validateFormReads : List String := ["formData", "setFormError"]

/-- Free identifiers read when the add-client modal renders (lines 468-570). -/
def addFormRenderReads : List String :=
  ["formError", "setFormError", "formData", "setFormData", "handleSubmit",
   "loadingStates", "setShowAddForm", "User", "Mail", "Key", "Bot"]

/-- The create-client form value. -/
structure FormData where
  name : String
  email : String
  openai_api_key : String
  openai_assistant_id : String
deriving DecidableEq

/-- Resolving an identifier: a value when the name is bound in scope,
    a ReferenceError otherwise; `vals` supplies the value of bound names. -/
def readVar (declared : List String) (vals : String → FormData) (n : String) :
    Except JsError FormData :=
  if n ∈ declared then .ok (vals n) else .error (.referenceError n)

/-- The four checks of validateForm (lines 140-155), in source order, given a
    resolved form value: the returned message is the formError it would set. -/
def validateFormLogic (fd : FormData) : Option String :=
  if !emailMatches fd.email then some "Por favor, ingrese un correo electrónico válido"
  else if fd.name.length < 3 then some "El nombre debe tener al menos 3 caracteres"
  else if fd.openai_api_key == "" then some "La clave de API de OpenAI es requerida"
  else if fd.openai_assistant_id == "" then some "El ID del asistente de OpenAI es requerido"
  else none

/-- Evaluating validateForm: its first statement reads `formData.email`, so
    the identifier formData is resolved before any check can run. -/
def validateFormRun (declared : List String) (vals : String → FormData) :
    Except JsError (Option String) := do
  let fd ← readVar declared vals "formData"
  pure (validateFormLogic fd)

/-- The outcome of a completed handleSubmit call. -/
structure SubmitRun where
  formError : Option String
  requests : List AdminReq
  succeeded : Bool
deriving DecidableEq

/-- handleSubmit (lines 159-183): clear formError, run validateForm, and only
    when validation passes read formData again for the POST body and issue
    the create request. A JsError thrown inside aborts the handler before
    any network call. -/
def handleSubmitRun (declared : List String) (vals : String → FormData)
    (postOut : CallOutcome Unit) : Except JsError SubmitRun := do
  let v ← validateFormRun declared vals
  match v with
  | some msg => pure { formError := some msg, requests := [], succeeded := false }
  | none =>
    let _fd ← readVar declared vals "formData"
    match postOut with
    | .ok _ => pure { formError := none, requests := [.createReq], succeeded := true }
    | .err d =>
      pure { formError := some (jsOrD d "Error al crear el cliente. Por favor, verifica los datos e intenta de nuevo."), requests := [.createReq], succeeded := false }

/-! ## QRAssistantPage fetchQRCode (AssistantInfo.jsx lines 170-213) -/

/-- One backend answer to GET /client/\x7bid\x7d/qr: an HTTP-success body with
    optional qr, error, state and connected_phone fields, or a rejected
    request carrying `error.response?.data?.detail`. -/
inductive QrOutcome where
  | ok (qr error state connected_phone : Option String)
  | exn (detail : Option String)
deriving DecidableEq

/-- The observable effects of one fetchQRCode run: the final qrCode and
    errorMessage state, the retryCountRef value, how many QR requests were
    made, the total setTimeout delay, and the toasts shown. -/
structure QrRun where
  qrCode : Option String
  errorMessage : Option String
  retryCount : Nat
  attempts : Nat
  delayMs : Nat
  toasts : List String
deriving DecidableEq

/-- A fresh run record before any attempt. -/
def initQrRun (qr err : Option String) (rc : Nat) : QrRun :=
  { qrCode := qr, errorMessage := err, retryCount := rc, attempts := 0,
    delayMs := 0, toasts := [] }

/-- One attempt of fetchQRCode, without the retry recursion: the updated run
    and whether the retry signature holds (request rejected with a detail
    whose message contains both 'Instance' and 'does not exist'). A truthy qr
    stores it, clears the error and resets the retry counter; a body without
    a truthy qr surfaces body.error (or a default) with no retry; a rejected
    request surfaces the detail (or a default). -/
def qrStep (out : QrOutcome) (acc : QrRun) : QrRun × Bool :=
  match out with
  | .ok qr error _ _ =>
    if jsTruthy qr then
      ({ acc with qrCode := qr, errorMessage := none, retryCount := 0,
                  attempts := acc.attempts + 1 }, false)
    else
      ({ acc with qrCode := none,
                  errorMessage := some (jsOrD error "No se pudo cargar el código QR."),
                  attempts := acc.attempts + 1 }, false)
  | .exn detail =>
    let msg := jsOrD detail "Error al conectar con el servidor."
    ({ acc with qrCode := none, errorMessage := some msg,
                attempts := acc.attempts + 1 }, isInstanceNotExist msg)

/-- The fetchQRCode loop: when an attempt was rejected with the instance-not-
    exist signature and retryCount is below maxRetries, wait 2000 ms,
    increment the counter and call itself again; otherwise stop, toasting the
    message when the attempt was a rejection. `oracle n` is the backend's
    answer to the n-th request of the run. -/
def fetchQRCodeGo (oracle : Nat → QrOutcome) (attempt rc : Nat) (acc : QrRun) : QrRun :=
  let r := (qrStep (oracle attempt) acc).1
  if h : (qrStep (oracle attempt) acc).2 = true ∧ rc < maxRetries then
    fetchQRCodeGo oracle (attempt + 1) (rc + 1)
      { r with retryCount := rc + 1, delayMs := r.delayMs + 2000 }
  else
    match oracle attempt with
    | .exn detail => { r with toasts := r.toasts ++ [jsOrD detail "Error al conectar con el servidor."] }
    | .ok _ _ _ _ => r
termination_by maxRetries - rc
decreasing_by simp_wf; omega

/-- fetchQRCode entry: when the cached clientData says connected, clear the
    QR and return without any request; otherwise run the attempt loop with
    the current retryCountRef value. -/
def fetchQRCode (connected : Bool) (oracle : Nat → QrOutcome) (acc : QrRun) : QrRun :=
  if connected then { acc with qrCode := none }
  else fetchQRCodeGo oracle 0 acc.retryCount acc

/-! ## ClientLanding fetchClientData (part_000 lines 31-143) -/

/-- The body of GET /client/\x7bunique_url\x7d/landing. -/
structure LandingData where
  id : String
  name : String
  email : String
  messageCount : Option Nat
  pausedCount : Option Nat
  globalPause : Option Bool
  connected : Bool
  connected_phone : Option String
deriving DecidableEq

/-- An HTTP call outcome for the landing and status steps: success with a
    value, or a rejection exposing `err.response?.status`. -/
inductive HttpOut (α : Type) where
  | ok (val : α)
  | err (status : Option Nat) (detail : Option String)
deriving DecidableEq

/-- The backend's answers for one invocation of fetchClientData: the landing
    record, the status body, and the QR call outcome. -/
structure CallBackend where
  landing : HttpOut LandingData
  statusResp : HttpOut String
  qr : QrOutcome
deriving DecidableEq

/-- The requests fetchClientData can issue, in issue order. -/
inductive FetchReq where
  | landingGet (slug : String)
  | statusGet (id : String)
  | qrGet (id : String)
deriving DecidableEq

/-- One fetchClientData run: the resulting view state, the requests issued,
    the retryCountRef value, and the accumulated setTimeout delay. -/
structure FetchRun where
  st : LandingState
  requests : List FetchReq
  retryCount : Nat
  delayMs : Nat
deriving DecidableEq

/-- The outer-catch message of part_000 lines 130-136, keyed on the HTTP
    status of the failing step: 404, 401, or anything else. -/
def kindMsg (status : Option Nat) : String :=
  if status = some 404 then "Cliente no encontrado. Verifica que el enlace sea correcto o contacta a soporte."
  else if status = some 401 then "Acceso no autorizado. Contacta al administrador."
  else "No se pudo conectar con el servidor. Por favor intenta nuevamente."

/-- The clientData record fetchClientData builds once the landing and status
    steps succeeded (lines 60-74). -/
def mkClientData (client : LandingData) (stStatus : String) : ClientData :=
  { client := { id := client.id, name := client.name, email := client.email,
                messageCount := jsOrNat client.messageCount,
                pausedCount := jsOrNat client.pausedCount,
                globalPause := jsOrBool client.globalPause },
    whatsapp := { connected := client.connected, status := stStatus,
                  connected_phone := client.connected_phone } }

/-- One pass of fetchClientData without the retry recursion, from the
    backend's answers `b`: clear the error, GET landing, GET status, apply
    the combined clientData, and when status is not open and fetchQr is set,
    GET the QR and handle its four cases. The boolean is the retry signature
    of the QR catch (message contains 'Instance' and 'does not exist'). -/
def runStep (b : CallBackend) (fetchQr : Bool) (slug : String) (acc : FetchRun) :
    FetchRun × Bool :=
  let acc0 : FetchRun := { acc with st := { acc.st with errorMessage := none } }
  match b.landing with
  | .err s _ =>
    let st' : LandingState := { acc0.st with qrCode := none, errorMessage := some (kindMsg s) }
    ({ acc0 with st := st', requests := acc0.requests ++ [.landingGet slug] }, false)
  | .ok client =>
    let acc1 : FetchRun := { acc0 with requests := acc0.requests ++ [.landingGet slug] }
    match b.statusResp with
    | .err s _ =>
      let st' : LandingState := { acc1.st with qrCode := none, errorMessage := some (kindMsg s) }
      ({ acc1 with st := st', requests := acc1.requests ++ [.statusGet client.id] }, false)
    | .ok stStatus =>
      let nd := mkClientData client stStatus
      let st2 : LandingState := { acc1.st with clientData := some nd }
      let acc2 : FetchRun := { acc1 with st := st2, requests := acc1.requests ++ [.statusGet client.id] }
      if stStatus ≠ "open" ∧ fetchQr = true then
        let acc3 : FetchRun := { acc2 with requests := acc2.requests ++ [.qrGet client.id] }
        match b.qr with
        | .ok qr error qstate qphone =>
          if jsTruthy qr then
            let st' : LandingState := { acc3.st with qrCode := qr, errorMessage := none }
            ({ acc3 with st := st', retryCount := 0 }, false)
          else if qstate = some "open" then
            let wa : Whatsapp := { connected := true, status := "open", connected_phone := jsOr qphone none }
            let st' : LandingState := { clientData := some { nd with whatsapp := wa }, qrCode := none, errorMessage := none }
            ({ acc3 with st := st' }, false)
          else
            let st' : LandingState := { acc3.st with qrCode := none, errorMessage := some (jsOrD error "No se pudo cargar el código QR. Intenta de nuevo.") }
            ({ acc3 with st := st' }, false)
        | .exn detail =>
          let msg := jsOrD detail "Error al conectar con el servidor para obtener el QR"
          let st' : LandingState := { acc3.st with qrCode := none, errorMessage := some msg }
          ({ acc3 with st := st' }, isInstanceNotExist msg)
      else
        let em := if stStatus = "open" then none else acc2.st.errorMessage
        let st' : LandingState := { acc2.st with qrCode := none, errorMessage := em }
        ({ acc2 with st := st' }, false)

/-- The fetchClientData retry loop: when the QR step was rejected with the
    instance-not-exist signature and retryCountRef is below maxRetries, wait
    2000 ms, increment the counter and re-run the whole fetch (landing and
    status included); otherwise the pass's result stands. `oracle n` answers
    the n-th (re-)invocation. -/
def fetchClientDataGo (oracle : Nat → CallBackend) (fetchQr : Bool) (slug : String)
    (call rc : Nat) (acc : FetchRun) : FetchRun :=
  let r := (runStep (oracle call) fetchQr slug acc).1
  if h : (runStep (oracle call) fetchQr slug acc).2 = true ∧ rc < maxRetries then
    fetchClientDataGo oracle fetchQr slug (call + 1) (rc + 1)
      { r with retryCount := rc + 1, delayMs := r.delayMs + 2000 }
  else r
termination_by maxRetries - rc
decreasing_by simp_wf; omega

/-- fetchClientData entry (part_000): a missing unique_url short-circuits
    with the invalid-link message and no request; otherwise the fetch loop
    runs with the current retryCountRef value. -/
def fetchClientData (oracle : Nat → CallBackend) (fetchQr : Bool)
    (slug : Option String) (st0 : LandingState) (rc0 : Nat) : FetchRun :=
  match slug with
  | none =>
    { st := { st0 with errorMessage := some "Enlace inválido. Verifica la URL e intenta nuevamente." },
      requests := [], retryCount := rc0, delayMs := 0 }
  | some s =>
    fetchClientDataGo oracle fetchQr s 0 rc0
      { st := st0, requests := [], retryCount := rc0, delayMs := 0 }

/-! ## Concrete fixtures used by counterexamples and witnesses -/

/-- A client as displayed on the landing page. -/
def cInfo0 : ClientInfo :=
  { id := "c1", name := "Acme", email := "a@acme.cl", messageCount := 0,
    pausedCount := 0, globalPause := false }

/-- A landing view mid-pairing: status connecting, a QR on screen. -/
def cdConnecting : ClientData :=
  { client := cInfo0,
    whatsapp := { connected := false, status := "connecting", connected_phone := none } }

/-- Landing state with a QR payload displayed and no error. -/
def stQr : LandingState :=
  { clientData := some cdConnecting, qrCode := some "QRDATA", errorMessage := none }

/-- A push event for the viewed client: status open, no phone, no QR. -/
def evOpen : PushEvent :=
  { clientId := some "c1", status := "open", phone := none, qrCode := none }

/-- A push event for a different client. -/
def evOther : PushEvent :=
  { clientId := some "zzz", status := "open", phone := none, qrCode := none }

/-- An admin row with a paired phone. -/
def adminC0 : AdminClient :=
  { id := "c1", instance_id := "c1", name := "Acme", email := "a@acme.cl",
    status := "connecting", connected_phone := some "+56911111111",
    unique_url := "acme-law" }

/-- An empty admin-panel state. -/
def opRun0 : OpRun :=
  { clients := [], error := none, successMessage := none, events := [] }

/-- A create-client form value whose email fails the pattern. -/
def fdBad : FormData :=
  { name := "Bufete Legal XYZ", email := "not-an-email",
    openai_api_key := "sk-123", openai_assistant_id := "asst-1" }

/-- A backend landing record. -/
def cW : LandingData :=
  { id := "c1", name := "Acme", email := "a@acme.cl", messageCount := none,
    pausedCount := none, globalPause := none, connected := false,
    connected_phone := none }

/-- Backend answers: the landing step is rejected with HTTP 404. -/
def o404 : Nat → CallBackend := fun _ =>
  { landing := .err (some 404) none, statusResp := .ok "connecting",
    qr := .ok none none none none }

/-- Backend answers: landing succeeds, the status step is rejected with 401. -/
def oStatusErr : Nat → CallBackend := fun _ =>
  { landing := .ok cW, statusResp := .err (some 401) none,
    qr := .ok none none none none }

/-- Backend answers: landing and status succeed with status open. -/
def oOpen : Nat → CallBackend := fun _ =>
  { landing := .ok cW, statusResp := .ok "open", qr := .ok none none none none }

/-- Backend answers: landing and status succeed (connecting), QR delivered. -/
def oQr : Nat → CallBackend := fun _ =>
  { landing := .ok cW, statusResp := .ok "connecting",
    qr := .ok (some "QR1") none none none }

/-- A backend client list of two records. -/
def rawW : List RawClient :=
  [{ id := "c1", name := "Alpha", email := "a@a.cl", status := "open",
     connected_phone := some "+1", unique_url := "u1" },
   { id := "c2", name := "Beta", email := "b@b.cl", status := "close",
     connected_phone := none, unique_url := "u2" }]

/-- Admin state holding the mapped form of `rawW`. -/
def stW : OpRun :=
  { clients := mapClients rawW, error := none, successMessage := none, events := [] }

/-- The landing state after merging `evOpen` into `stQr`: status open with
the old QR payload still stored. -/
def stAfterPush : LandingState :=
  { clientData := some { client := cInfo0, whatsapp := { connected := true, status := "open", connected_phone := none } },
    qrCode := some "QRDATA", errorMessage := none }

/-! ## Theorems -/

/-! ## Helper lemmas -/

/-- mapClients commutes with deleting one id. -/
theorem mapClients_filter (raw : List RawClient) (i : String) :
    (mapClients raw).filter (fun c => c.instance_id != i)
      = mapClients (raw.filter (fun r => r.id != i)) := by
  induction raw with
  | nil => rfl
  | cons r rs ih =>
    simp only [mapClients, List.map_cons, List.filter_cons] at *
    by_cases h : r.id = i
    · simp [h, ih]
    · simp [h, ih]

/-- Claim C3: a push event whose clientId differs from the identifier of the
client being viewed leaves the whole displayed state unchanged, both in the
landing-page handler and in the admin-panel handler. -/
theorem c3_push_other_ignored :
    (∀ (st : LandingState) (ev : PushEvent),
       ev.clientId ≠ st.clientData.map (fun d => d.client.id) →
       handleLandingPush st ev = .ok st) ∧
    (∀ (clients : List AdminClient) (ev : PushEvent),
       (∀ c ∈ clients, some c.instance_id ≠ ev.clientId) →
       handleAdminPush clients ev = clients) := by
  constructor
  · intro st ev h
    unfold handleLandingPush
    rw [if_neg h]
  · intro clients ev h
    unfold handleAdminPush
    induction clients with
    | nil => rfl
    | cons c cs ih =>
      simp only [List.map_cons, List.mem_cons] at *
      rw [if_neg (h c (Or.inl rfl))]
      rw [ih (fun x hx => h x (Or.inr hx))]

/-- Witness for C3 at a concrete state and event. -/
theorem c3_push_other_ignored_witness :
    handleLandingPush stQr evOther = .ok stQr ∧
    handleAdminPush [adminC0] evOther = [adminC0] :=
  ⟨c3_push_other_ignored.1 stQr evOther (by decide),
   c3_push_other_ignored.2 [adminC0] evOther (by decide)⟩

/-- Claim C4 counterexample: the admin-panel merge does not fall back to the
previous connectedPhone when the event carries no phone — the stored phone
"+56911111111" is replaced by null by an event with status open and no
phone, while the claim requires it to be kept. -/
theorem c4_merge_counterexample :
    adminC0.connected_phone = some "+56911111111" ∧
    (handleAdminPush [adminC0] evOpen).map (fun c => c.connected_phone) = [none] := by
  decide

/-- Claim C4 (amended): the landing-page merge behaves as claimed — status
from the event, connected derived, phone falling back to the previous value
when the event's phone is not truthy, QR overwritten and error cleared
exactly when the event carries a truthy QR payload — while the admin-panel
merge rewrites status and phone only, copying the event's phone even when
absent. -/
theorem c4_merge_amended :
    (∀ (st : LandingState) (d : ClientData) (ev : PushEvent),
       st.clientData = some d → ev.clientId = some d.client.id →
       ∃ st', handleLandingPush st ev = .ok st' ∧
         ∃ d', st'.clientData = some d' ∧
           d'.client = d.client ∧
           d'.whatsapp.status = ev.status ∧
           d'.whatsapp.connected = (ev.status == "open") ∧
           d'.whatsapp.connected_phone = jsOr ev.phone d.whatsapp.connected_phone ∧
           (jsTruthy ev.qrCode = true → st'.qrCode = ev.qrCode ∧ st'.errorMessage = none) ∧
           (jsTruthy ev.qrCode = false → st'.qrCode = st.qrCode ∧ st'.errorMessage = st.errorMessage)) ∧
    (∀ (c : AdminClient) (ev : PushEvent), ev.clientId = some c.instance_id →
       handleAdminPush [c] ev = [{ c with status := ev.status, connected_phone := ev.phone }]) := by
  constructor
  · intro st d ev h1 h2
    unfold handleLandingPush
    rw [h1]
    rw [if_pos (by simp [h1, h2])]
    refine ⟨_, rfl, _, rfl, rfl, rfl, rfl, rfl, ?_, ?_⟩
    · intro ht; simp [ht]
    · intro ht; simp [ht]
  · intro c ev h
    unfold handleAdminPush
    simp [h]

/-- Witness for C4 (amended) at concrete inputs. -/
theorem c4_merge_amended_witness :
    (handleLandingPush stQr evOpen).isOk = true ∧
    handleAdminPush [adminC0] evOpen
      = [{ adminC0 with status := "open", connected_phone := none }] := by
  constructor
  · obtain ⟨st', hst', -⟩ := c4_merge_amended.1 stQr cdConnecting evOpen rfl rfl
    simp [hst', Except.isOk, Except.toBool]
  · exact c4_merge_amended.2 adminC0 evOpen rfl

/-- Claim C10: a confirmed, successful delete patches the list locally to
exactly the previous list without the entries of that instance_id (a sublist
of the old list), and this optimistic list agrees with what a subsequent full
refresh would return once the backend list no longer holds the deleted id. -/
theorem c10_delete_local_list :
    ∀ (st : OpRun) (id nm : String) (raw : List RawClient)
      (lOut : CallOutcome (List RawClient)),
      st.clients = mapClients raw →
      (deleteClient st id nm true (.ok ()) lOut).clients
          = st.clients.filter (fun c => c.instance_id != id) ∧
      (∀ c, c ∈ (deleteClient st id nm true (.ok ()) lOut).clients ↔
          (c ∈ st.clients ∧ c.instance_id ≠ id)) ∧
      (deleteClient st id nm true (.ok ()) lOut).clients.Sublist st.clients ∧
      (deleteClient st id nm true (.ok ()) lOut).clients
          = mapClients (raw.filter (fun r => r.id != id)) := by
  intro st id nm raw lOut h
  have hcl : (deleteClient st id nm true (.ok ()) lOut).clients
      = st.clients.filter (fun c => c.instance_id != id) := by
    simp [deleteClient]
  refine ⟨hcl, ?_, ?_, ?_⟩
  · intro c
    rw [hcl, List.mem_filter]
    simp [bne_iff_ne]
  · rw [hcl]
    exact List.filter_sublist _
  · rw [hcl, h, mapClients_filter]

/-- Witness for C10 on a two-element list. -/
theorem c10_delete_local_list_witness :
    (deleteClient stW "c2" "Beta" true (.ok ()) (.ok [])).clients
      = mapClients (rawW.filter (fun r => r.id != "c2")) :=
  (c10_delete_local_list stW "c2" "Beta" rawW (.ok []) rfl).2.2.2

/-- Claim C9 counterexample: the admin-panel toggleClient dispatches a
disconnect POST (and the follow-up list refresh) without ever showing a
confirmation dialog. -/
theorem c9_confirm_counterexample :
    (toggleClient opRun0 "c1" false (.ok ()) (.ok [])).events.filter AdminReq.isConfirm = [] ∧
    (toggleClient opRun0 "c1" false (.ok ()) (.ok [])).events.filter AdminReq.isNetwork
      = [.toggleReq "c1" "disconnect", .listReq] := by
  decide

/-- Claim C9 (amended): the landing-page disconnect makes no network call
when the confirmation is declined, but the admin-panel toggle always issues
its POST (and the refresh) with no confirmation prompt at all. -/
theorem c9_confirm_amended :
    (∀ (cid : Option String) (postOut : CallOutcome Unit),
       (handleDisconnectWhatsApp cid false postOut).filter LandingReq.isNetwork = []) ∧
    (∀ (st : OpRun) (id : String) (isActive : Bool) (tOut : CallOutcome Unit)
       (lOut : CallOutcome (List RawClient)),
       (toggleClient st id isActive tOut lOut).events
         = st.events
             ++ [.toggleReq id (if isActive then "connect" else "disconnect"), .listReq]) := by
  constructor
  · intro cid postOut
    cases cid with
    | none => rfl
    | some id => rfl
  · intro st id isActive tOut lOut
    cases tOut with
    | ok _ => cases lOut <;> simp [toggleClient, fetchClientsRun]
    | err d => cases lOut <;> simp [toggleClient, fetchClientsRun]

/-- Claim C8 counterexample: a failing updateClientEmail sets the error but
issues no list refresh — the only request of the run is the PUT. -/
theorem c8_refresh_counterexample :
    (updateClientEmail opRun0 (some "c1") "a@b.cl" (.err (some "boom")) (.ok [])).events
      = [.emailReq "c1" "a@b.cl"] ∧
    (updateClientEmail opRun0 (some "c1") "a@b.cl" (.err (some "boom")) (.ok [])).error
      = some "boom" := by
  decide

/-- Claim C8 (amended): on failure toggleClient and deleteClient set an error
and do refresh the list (the refresh immediately resets the error, clearing
it when the refresh succeeds), while updateClientEmail and resendEmail keep
their persistent error but perform no refresh. -/
theorem c8_refresh_amended :
    (∀ (st : OpRun) (id : String) (a : Bool) (d : Option String)
       (lOut : CallOutcome (List RawClient)),
       (toggleClient st id a (.err d) lOut).events
         = st.events ++ [.toggleReq id (if a then "connect" else "disconnect"), .listReq]) ∧
    (∀ (st : OpRun) (id : String) (a : Bool) (d : Option String) (raw : List RawClient),
       (toggleClient st id a (.err d) (.ok raw)).error = none) ∧
    (∀ (st : OpRun) (id nm : String) (d : Option String)
       (lOut : CallOutcome (List RawClient)),
       (deleteClient st id nm true (.err d) lOut).events
         = st.events ++ [.confirmPrompt nm, .deleteReq id, .listReq]) ∧
    (∀ (st : OpRun) (id nm : String) (d : Option String) (raw : List RawClient),
       (deleteClient st id nm true (.err d) (.ok raw)).error = none) ∧
    (∀ (st : OpRun) (id em : String) (d : Option String)
       (lOut : CallOutcome (List RawClient)), emailMatches em = true →
       (updateClientEmail st (some id) em (.err d) lOut).events
           = st.events ++ [.emailReq id em] ∧
       (updateClientEmail st (some id) em (.err d) lOut).error
           = some (jsOrD d "No se pudo actualizar el email")) ∧
    (∀ (st : OpRun) (id em : String) (d : Option String),
       (resendEmail st id em true (.err d)).events
           = st.events ++ [.confirmPrompt em, .resendReq id] ∧
       (resendEmail st id em true (.err d)).error
           = some (jsOrD d "No se pudo reenviar el email")) := by
  refine ⟨?_, ?_, ?_, ?_, ?_, ?_⟩
  · intro st id a d lOut
    cases lOut <;> simp [toggleClient, fetchClientsRun]
  · intro st id a d raw
    simp [toggleClient, fetchClientsRun]
  · intro st id nm d lOut
    cases lOut <;> simp [deleteClient, fetchClientsRun]
  · intro st id nm d raw
    simp [deleteClient, fetchClientsRun]
  · intro st id em d lOut h
    constructor <;> simp [updateClientEmail, h]
  · intro st id em d
    constructor <;> simp [resendEmail]

/-- Witness for C8 (amended) at concrete inputs. -/
theorem c8_refresh_amended_witness :
    emailMatches "a@b.cl" = true ∧
    (updateClientEmail opRun0 (some "c9") "a@b.cl" (.err none) (.ok [])).events
      = [.emailReq "c9" "a@b.cl"] :=
  ⟨by decide,
   by
     have h := (c8_refresh_amended.2.2.2.2.1 opRun0 "c9" "a@b.cl" none (.ok [])
       (by decide)).1
     simpa [opRun0] using h⟩

/-- Claim C7: the identifiers formData and setFormData are not among the
names declared in the AdminPanel component, although validateForm and the
add-client modal read formData; hence every handleSubmit evaluation raises
ReferenceError "formData" (before validation completes and before any
network call — the result carries no request list at all). -/
theorem c7_formData_undeclared :
    "formData" ∉ adminPanelDeclared ∧
    "setFormData" ∉ adminPanelDeclared ∧
    "formData" ∈ validateFormReads ∧
    "formData" ∈ addFormRenderReads ∧
    ∀ (vals : String → FormData) (postOut : CallOutcome Unit),
      handleSubmitRun adminPanelDeclared vals postOut
        = .error (.referenceError "formData") := by
  refine ⟨by decide, by decide, by decide, by decide, ?_⟩
  intro vals postOut
  unfold handleSubmitRun validateFormRun readVar
  rw [if_neg (by decide)]
  rfl

/-- Claim C6 (code bug): submitting the add-client form with an invalid email
does not produce the local validation error the intended check computes
(shown on the right conjunct); evaluation raises ReferenceError "formData"
first, because the state was never declared. -/
theorem c6_validation_reference_error :
    handleSubmitRun adminPanelDeclared (fun _ => fdBad) (.ok ())
        = .error (.referenceError "formData") ∧
    validateFormLogic fdBad = some "Por favor, ingrese un correo electrónico válido" :=
  ⟨rfl, by decide⟩

/-- A message matching the instance-not-exist signature is non-empty. -/
theorem isInstanceNotExist_ne_empty {m : String} (hm : isInstanceNotExist m = true) :
    (m == "") = false := by
  cases h : m == "" with
  | true =>
    exfalso
    have hme : m = "" := by simpa using h
    subst hme
    exact absurd hm (by decide)
  | false => rfl

/-- One rejected attempt of the QR fetch, as a step. -/
theorem qrStep_exn (m : String) (hm : isInstanceNotExist m = true) (acc : QrRun) :
    qrStep (QrOutcome.exn (some m)) acc
      = ({ acc with qrCode := none, errorMessage := some m,
                    attempts := acc.attempts + 1 }, true) := by
  have hne := isInstanceNotExist_ne_empty hm
  simp [qrStep, jsOrD, hne, hm]

/-- Against a backend that always rejects with an instance-not-exist detail,
the QR fetch performs one attempt plus one further attempt per unit of
remaining retry budget, waits 2000 ms before each retry, and finally
surfaces the message as error and toast. -/
theorem fetchQRCodeGo_exn_const (m : String) (hm : isInstanceNotExist m = true) :
    ∀ (n attempt rc : Nat) (acc : QrRun), maxRetries - rc = n →
      (fetchQRCodeGo (fun _ => .exn (some m)) attempt rc acc).attempts
          = acc.attempts + n + 1 ∧
      (fetchQRCodeGo (fun _ => .exn (some m)) attempt rc acc).delayMs
          = acc.delayMs + 2000 * n ∧
      (fetchQRCodeGo (fun _ => .exn (some m)) attempt rc acc).errorMessage = some m ∧
      (fetchQRCodeGo (fun _ => .exn (some m)) attempt rc acc).qrCode = none ∧
      (fetchQRCodeGo (fun _ => .exn (some m)) attempt rc acc).toasts
          = acc.toasts ++ [m] := by
  have hne := isInstanceNotExist_ne_empty hm
  intro n
  induction n with
  | zero =>
    intro attempt rc acc h
    unfold fetchQRCodeGo
    rw [qrStep_exn m hm acc]
    rw [dif_neg (by simp; omega)]
    simp [jsOrD, hne]
  | succ n ih =>
    intro attempt rc acc h
    unfold fetchQRCodeGo
    rw [qrStep_exn m hm acc]
    rw [dif_pos ⟨rfl, by omega⟩]
    obtain ⟨h1, h2, h3, h4, h5⟩ := ih (attempt + 1) (rc + 1)
      { acc with qrCode := none, errorMessage := some m,
                 attempts := acc.attempts + 1, retryCount := rc + 1,
                 delayMs := acc.delayMs + 2000 } (by omega)
    dsimp only at h1 h2 h5
    refine ⟨?_, ?_, h3, h4, ?_⟩
    · rw [h1]; omega
    · rw [h2]; ring_nf
    · exact h5

/-- An HTTP-success QR answer never triggers the retry flag. -/
theorem qrStep_ok_flag (q e s p : Option String) (acc : QrRun) :
    (qrStep (QrOutcome.ok q e s p) acc).2 = false := by
  cases hq : jsTruthy q <;> simp [qrStep, hq]

/-- On an HTTP-success QR answer the fetch loop stops after the one attempt. -/
theorem fetchQRCodeGo_ok (q e s p : Option String) (attempt rc : Nat) (acc : QrRun) :
    fetchQRCodeGo (fun _ => .ok q e s p) attempt rc acc
      = (qrStep (QrOutcome.ok q e s p) acc).1 := by
  unfold fetchQRCodeGo
  have hflag := qrStep_ok_flag q e s p acc
  rw [dif_neg (by rw [hflag]; simp)]

/-- Claim C1 counterexample: a QR fetch answered with HTTP success and the
body error "Instance c1 does not exist" — a failure carrying the
instance-not-exist signature — performs exactly one attempt, waits not at
all, and surfaces the message: no retry happens, although the claim
requires 3 retries with 2000 ms delays for every failure with this
signature. -/
theorem c1_qr_retry_counterexample :
    isInstanceNotExist "Instance c1 does not exist" = true ∧
    (fetchQRCodeGo (fun _ => .ok none (some "Instance c1 does not exist") none none)
        0 0 (initQrRun none none 0)).attempts = 1 ∧
    (fetchQRCodeGo (fun _ => .ok none (some "Instance c1 does not exist") none none)
        0 0 (initQrRun none none 0)).delayMs = 0 ∧
    (fetchQRCodeGo (fun _ => .ok none (some "Instance c1 does not exist") none none)
        0 0 (initQrRun none none 0)).errorMessage
      = some "Instance c1 does not exist" := by
  rw [fetchQRCodeGo_ok]
  exact ⟨by decide, by decide, by decide, by decide⟩

/-- Claim C1 (amended): only a rejected request whose detail carries the
instance-not-exist signature is retried — then exactly 3 further attempts
happen with 2000 ms before each, and the error surfaces; a rejection of any
other kind surfaces immediately with no retry, and an HTTP-success body
without a truthy qr (whatever its error text) also surfaces immediately
with no retry. -/
theorem c1_qr_retry_amended :
    (∀ (m : String) (acc : QrRun), isInstanceNotExist m = true →
       (fetchQRCodeGo (fun _ => .exn (some m)) 0 0 acc).attempts = acc.attempts + 4 ∧
       (fetchQRCodeGo (fun _ => .exn (some m)) 0 0 acc).delayMs = acc.delayMs + 6000 ∧
       (fetchQRCodeGo (fun _ => .exn (some m)) 0 0 acc).errorMessage = some m ∧
       (fetchQRCodeGo (fun _ => .exn (some m)) 0 0 acc).qrCode = none ∧
       (fetchQRCodeGo (fun _ => .exn (some m)) 0 0 acc).toasts = acc.toasts ++ [m]) ∧
    (∀ (m : String) (rc : Nat) (acc : QrRun),
       isInstanceNotExist m = false → (m == "") = false →
       fetchQRCodeGo (fun _ => .exn (some m)) 0 rc acc
         = { acc with qrCode := none, errorMessage := some m,
                      attempts := acc.attempts + 1, toasts := acc.toasts ++ [m] }) ∧
    (∀ (e s p : Option String) (rc : Nat) (acc : QrRun),
       fetchQRCodeGo (fun _ => .ok none e s p) 0 rc acc
         = { acc with qrCode := none,
                      errorMessage := some (jsOrD e "No se pudo cargar el código QR."),
                      attempts := acc.attempts + 1 }) := by
  refine ⟨?_, ?_, ?_⟩
  · intro m acc hm
    obtain ⟨h1, h2, h3, h4, h5⟩ := fetchQRCodeGo_exn_const m hm 3 0 0 acc rfl
    exact ⟨by omega, by omega, h3, h4, h5⟩
  · intro m rc acc hm hne
    unfold fetchQRCodeGo
    have hstep : qrStep (QrOutcome.exn (some m)) acc
        = ({ acc with qrCode := none, errorMessage := some m,
                      attempts := acc.attempts + 1 }, isInstanceNotExist m) := by
      simp [qrStep, jsOrD, hne]
    rw [hstep, dif_neg (by simp [hm])]
    simp [jsOrD, hne]
  · intro e s p rc acc
    rw [fetchQRCodeGo_ok]
    simp [qrStep, jsTruthy]

/-- Witness for C1 (amended) at concrete messages. -/
theorem c1_qr_retry_amended_witness :
    isInstanceNotExist "Instance c1 does not exist" = true ∧
    (fetchQRCodeGo (fun _ => .exn (some "Instance c1 does not exist")) 0 0
        (initQrRun none none 0)).attempts = (initQrRun none none 0).attempts + 4 ∧
    isInstanceNotExist "boom" = false ∧
    fetchQRCodeGo (fun _ => .exn (some "boom")) 0 0 (initQrRun none none 0) = { initQrRun none none 0 with qrCode := none, errorMessage := some "boom", attempts := (initQrRun none none 0).attempts + 1, toasts := (initQrRun none none 0).toasts ++ ["boom"] } :=
  ⟨by decide,
   (c1_qr_retry_amended.1 "Instance c1 does not exist" (initQrRun none none 0)
     (by decide)).1,
   by decide,
   c1_qr_retry_amended.2.1 "boom" 0 (initQrRun none none 0) (by decide) (by decide)⟩

/-- When the pass does not raise the retry signature, the loop returns that
pass's result unchanged. -/
theorem fetchClientDataGo_no_retry (oracle : Nat → CallBackend) (fq : Bool)
    (slug : String) (call rc : Nat) (acc : FetchRun)
    (h : (runStep (oracle call) fq slug acc).2 = false) :
    fetchClientDataGo oracle fq slug call rc acc
      = (runStep (oracle call) fq slug acc).1 := by
  unfold fetchClientDataGo
  rw [dif_neg (by rw [h]; simp)]

/-- Every single pass of fetchClientData leaves a state in which a stored
status of "open" forces a cleared qrCode. -/
theorem runStep_open_inv (b : CallBackend) (fq : Bool) (slug : String)
    (acc : FetchRun) (d : ClientData)
    (h1 : (runStep b fq slug acc).1.st.clientData = some d)
    (h2 : d.whatsapp.status = "open") :
    (runStep b fq slug acc).1.st.qrCode = none := by
  cases hL : b.landing with
  | err s dd => simp [runStep, hL]
  | ok client =>
    cases hS : b.statusResp with
    | err s dd => simp [runStep, hL, hS]
    | ok stStatus =>
      by_cases hif : stStatus ≠ "open" ∧ fq = true
      · cases hQ : b.qr with
        | ok qr error qstate qphone =>
          by_cases hq : jsTruthy qr = true
          · simp only [runStep, hL, hS, hQ, hif, and_self, if_true, hq] at h1
            rw [if_pos ⟨hif.1, trivial⟩] at h1
            dsimp only at h1
            exfalso
            rw [Option.some_inj] at h1
            apply hif.1
            rw [← h1] at h2
            simpa [mkClientData] using h2
          · by_cases hqs : qstate = some "open"
            · simp [runStep, hL, hS, hQ, hif, hq, hqs]
            · simp [runStep, hL, hS, hQ, hif, hq, hqs]
        | exn detail => simp [runStep, hL, hS, hQ, hif]
      · simp [runStep, hL, hS, hif]

/-- The invariant extends through the retry loop. -/
theorem fetchClientDataGo_open_inv :
    ∀ (n : Nat) (oracle : Nat → CallBackend) (fq : Bool) (slug : String)
      (call rc : Nat) (acc : FetchRun) (d : ClientData),
      maxRetries - rc ≤ n →
      (fetchClientDataGo oracle fq slug call rc acc).st.clientData = some d →
      d.whatsapp.status = "open" →
      (fetchClientDataGo oracle fq slug call rc acc).st.qrCode = none := by
  intro n
  induction n with
  | zero =>
    intro oracle fq slug call rc acc d hn h1 h2
    unfold fetchClientDataGo at h1 ⊢
    rw [dif_neg (by intro hc; omega)] at h1 ⊢
    exact runStep_open_inv _ _ _ _ d h1 h2
  | succ n ih =>
    intro oracle fq slug call rc acc d hn h1 h2
    unfold fetchClientDataGo at h1 ⊢
    by_cases hc : (runStep (oracle call) fq slug acc).2 = true ∧ rc < maxRetries
    · rw [dif_pos hc] at h1 ⊢
      exact ih oracle fq slug (call + 1) (rc + 1) _ d (by omega) h1 h2
    · rw [dif_neg hc] at h1 ⊢
      exact runStep_open_inv _ _ _ _ d h1 h2

/-- Claim C2 counterexample: from a reachable state showing a QR while
connecting, a matching push event with status open and no QR payload leaves
the stored qrCode in place: the merged state has status "open" and a
non-null qrCode, violating the invariant the claim asserts for the
push-event merge. -/
theorem c2_qr_open_counterexample :
    handleLandingPush stQr evOpen = .ok stAfterPush ∧
    stAfterPush.clientData.map (fun d => d.whatsapp.status) = some "open" ∧
    stAfterPush.qrCode = some "QRDATA" :=
  ⟨rfl, by decide, by decide⟩

/-- Claim C2 (amended): a completed fetchClientData call (with a valid slug)
always leaves a state satisfying the invariant — whenever the stored status
is "open" the stored qrCode is null — but the push-event merge does not
preserve it (see the counterexample). -/
theorem c2_qr_open_amended :
    ∀ (oracle : Nat → CallBackend) (fq : Bool) (slug : String)
      (st0 : LandingState) (rc0 : Nat) (d : ClientData),
      (fetchClientData oracle fq (some slug) st0 rc0).st.clientData = some d →
      d.whatsapp.status = "open" →
      (fetchClientData oracle fq (some slug) st0 rc0).st.qrCode = none := by
  intro oracle fq slug st0 rc0 d h1 h2
  unfold fetchClientData at h1 ⊢
  exact fetchClientDataGo_open_inv maxRetries oracle fq slug 0 rc0 _ d
    (Nat.sub_le _ _) h1 h2

/-- Witness for C2 (amended): a fetch that finds status open clears the QR
even though the prior state displayed one. -/
theorem c2_qr_open_amended_witness :
    (fetchClientData oOpen true (some "acme-law") stQr 0).st.qrCode = none := by
  have he : fetchClientData oOpen true (some "acme-law") stQr 0
      = (runStep (oOpen 0) true "acme-law"
          { st := stQr, requests := [], retryCount := 0, delayMs := 0 }).1 := by
    unfold fetchClientData
    exact fetchClientDataGo_no_retry oOpen true "acme-law" 0 0 _ (by decide)
  apply c2_qr_open_amended oOpen true "acme-law" stQr 0 (mkClientData cW "open")
  · rw [he]; decide
  · rfl

/-- Claim C5 counterexample: with a QR on display, a landing step rejected
with HTTP 404 leaves clientData untouched but clears the stored qrCode —
the view state after the failed call is NOT the same as before the call,
although the claim requires that no partial state be applied on failure. -/
theorem c5_fetch_counterexample :
    stQr.qrCode = some "QRDATA" ∧
    (fetchClientData o404 true (some "acme-law") stQr 0).st.qrCode = none ∧
    (fetchClientData o404 true (some "acme-law") stQr 0).st.clientData = stQr.clientData ∧
    (fetchClientData o404 true (some "acme-law") stQr 0).st ≠ stQr := by
  have he : fetchClientData o404 true (some "acme-law") stQr 0
      = (runStep (o404 0) true "acme-law"
          { st := stQr, requests := [], retryCount := 0, delayMs := 0 }).1 := by
    unfold fetchClientData
    exact fetchClientDataGo_no_retry o404 true "acme-law" 0 0 _ (by decide)
  refine ⟨by decide, ?_, ?_, ?_⟩ <;> rw [he] <;> decide

/-- Claim C5 (amended): fetchClientData performs its steps in order — landing
resolution, then status, then (only when status is not open) the QR — and on
failure of the landing or status step it aborts with the kind-specific
message, leaving clientData unchanged but clearing the stored qrCode. -/
theorem c5_fetch_amended :
    (∀ (o : Nat → CallBackend) (fq : Bool) (s : String) (st0 : LandingState)
       (rc0 : Nat) (hs : Option Nat) (hd : Option String),
       (o 0).landing = .err hs hd →
       (fetchClientData o fq (some s) st0 rc0).requests = [.landingGet s] ∧
       (fetchClientData o fq (some s) st0 rc0).st.clientData = st0.clientData ∧
       (fetchClientData o fq (some s) st0 rc0).st.qrCode = none ∧
       (fetchClientData o fq (some s) st0 rc0).st.errorMessage = some (kindMsg hs)) ∧
    (∀ (o : Nat → CallBackend) (fq : Bool) (s : String) (st0 : LandingState)
       (rc0 : Nat) (c : LandingData) (hs : Option Nat) (hd : Option String),
       (o 0).landing = .ok c → (o 0).statusResp = .err hs hd →
       (fetchClientData o fq (some s) st0 rc0).requests
           = [.landingGet s, .statusGet c.id] ∧
       (fetchClientData o fq (some s) st0 rc0).st.clientData = st0.clientData ∧
       (fetchClientData o fq (some s) st0 rc0).st.qrCode = none ∧
       (fetchClientData o fq (some s) st0 rc0).st.errorMessage = some (kindMsg hs)) ∧
    (∀ (o : Nat → CallBackend) (fq : Bool) (s : String) (st0 : LandingState)
       (rc0 : Nat) (c : LandingData),
       (o 0).landing = .ok c → (o 0).statusResp = .ok "open" →
       (fetchClientData o fq (some s) st0 rc0).requests
           = [.landingGet s, .statusGet c.id] ∧
       (fetchClientData o fq (some s) st0 rc0).st.clientData
           = some (mkClientData c "open") ∧
       (fetchClientData o fq (some s) st0 rc0).st.qrCode = none ∧
       (fetchClientData o fq (some s) st0 rc0).st.errorMessage = none) ∧
    (∀ (o : Nat → CallBackend) (s : String) (st0 : LandingState) (rc0 : Nat)
       (c : LandingData) (stS : String) (q e qs qp : Option String),
       (o 0).landing = .ok c → (o 0).statusResp = .ok stS → stS ≠ "open" →
       (o 0).qr = .ok q e qs qp →
       (fetchClientData o true (some s) st0 rc0).requests
           = [.landingGet s, .statusGet c.id, .qrGet c.id]) := by
  refine ⟨?_, ?_, ?_, ?_⟩
  · intro o fq s st0 rc0 hs hd hL
    have he : fetchClientData o fq (some s) st0 rc0
        = (runStep (o 0) fq s { st := st0, requests := [], retryCount := rc0, delayMs := 0 }).1 := by
      unfold fetchClientData
      exact fetchClientDataGo_no_retry o fq s 0 rc0 _ (by simp [runStep, hL])
    rw [he]
    simp [runStep, hL]
  · intro o fq s st0 rc0 c hs hd hL hS
    have he : fetchClientData o fq (some s) st0 rc0
        = (runStep (o 0) fq s { st := st0, requests := [], retryCount := rc0, delayMs := 0 }).1 := by
      unfold fetchClientData
      exact fetchClientDataGo_no_retry o fq s 0 rc0 _ (by simp [runStep, hL, hS])
    rw [he]
    simp [runStep, hL, hS]
  · intro o fq s st0 rc0 c hL hS
    have he : fetchClientData o fq (some s) st0 rc0
        = (runStep (o 0) fq s { st := st0, requests := [], retryCount := rc0, delayMs := 0 }).1 := by
      unfold fetchClientData
      exact fetchClientDataGo_no_retry o fq s 0 rc0 _ (by simp [runStep, hL, hS])
    rw [he]
    simp [runStep, hL, hS]
  · intro o s st0 rc0 c stS q e qs qp hL hS hne hQ
    have hflag : (runStep (o 0) true s
        { st := st0, requests := [], retryCount := rc0, delayMs := 0 }).2 = false := by
      simp only [runStep, hL, hS, hQ]
      rw [if_pos ⟨hne, trivial⟩]
      split
      · rfl
      · split <;> rfl
    have he : fetchClientData o true (some s) st0 rc0
        = (runStep (o 0) true s { st := st0, requests := [], retryCount := rc0, delayMs := 0 }).1 := by
      unfold fetchClientData
      exact fetchClientDataGo_no_retry o true s 0 rc0 _ hflag
    rw [he]
    simp only [runStep, hL, hS, hQ]
    rw [if_pos ⟨hne, trivial⟩]
    split
    · rfl
    · split <;> rfl

/-- Witness for C5 (amended) at concrete backends for all four scenarios. -/
theorem c5_fetch_amended_witness :
    (fetchClientData o404 true (some "acme-law") stQr 0).requests
        = [.landingGet "acme-law"] ∧
    (fetchClientData oStatusErr true (some "acme-law") stQr 0).requests
        = [.landingGet "acme-law", .statusGet "c1"] ∧
    (fetchClientData oOpen true (some "acme-law") stQr 0).requests
        = [.landingGet "acme-law", .statusGet "c1"] ∧
    (fetchClientData oQr true (some "acme-law") stQr 0).requests
        = [.landingGet "acme-law", .statusGet "c1", .qrGet "c1"] :=
  ⟨(c5_fetch_amended.1 o404 true "acme-law" stQr 0 (some 404) none rfl).1,
   (c5_fetch_amended.2.1 oStatusErr true "acme-law" stQr 0 cW (some 401) none rfl rfl).1,
   (c5_fetch_amended.2.2.1 oOpen true "acme-law" stQr 0 cW rfl rfl).1,
   c5_fetch_amended.2.2.2 oQr "acme-law" stQr 0 cW "connecting" (some "QR1") none none
     none rfl rfl (by decide) rfl⟩

end Evo
